import Mathlib

/-!
Shallow embedding of `src/streamlit_app.py` (AMC Board Game Streamlit app).

The app's side-effecting collaborators (the Spotify API via spotipy, the
Streamlit session and widgets, `random`) are modelled as explicit inputs:
the server's successive page responses become a list of `Except`-results
consumed positionally, OAuth calls become function-valued environment
fields, and each `random` draw becomes an index argument reduced modulo
the sequence length (`random.choice(seq)` picks `seq[k]` for a uniform
`k < len(seq)`).  Surfaced `st.error`/`st.warning`/`st.info` texts are
collected in result fields, as are the exception payloads raised during a
run, so that error-surfacing claims are statable.
-/

namespace AMC

/-- A pagination page as returned by the Spotify API:
`{items: [...], next: url-or-null}` (spec section 6; consumed at
`streamlit_app.py` lines 113-118 and 129-137). -/
structure Page (α : Type) where
  items : List α
  next : Option String
  deriving DecidableEq

/-- Python truthiness of `results.get("next")`: `None` (absent) and the
empty string are falsy. -/
def truthy : Option String → Bool
  | none => false
  | some s => !s.isEmpty

/-- Result of one of the two page-loader functions: the returned list,
the `st.error` messages emitted, and the exception payloads raised during
the run. -/
structure FetchResult (α : Type) where
  items : List α
  messages : List String
  raised : List String
  deriving DecidableEq

/-- The `while results:` loop of `load_playlists` (lines 113-118), after a
first page `cur` has been obtained.  `resps` lists the results of the
successive `sp.next(results)` calls: `.ok p` is a returned page, `.error e`
a raised exception (caught at line 120, which discards `playlists` and
returns `[]`).  An exhausted `resps` models `sp.next` returning a falsy
value, on which `while results:` exits with the accumulated items. -/
def load_playlists_go (cur : Page α) (resps : List (Except String (Page α)))
    (acc : List α) : FetchResult α :=
  if truthy cur.next then
    match resps with
    | [] => ⟨acc ++ cur.items, [], []⟩
    | .error e :: _ => ⟨[], ["Error loading playlists: " ++ e], [e]⟩
    | .ok p :: rest => load_playlists_go p rest (acc ++ cur.items)
  else ⟨acc ++ cur.items, [], []⟩

/-- `load_playlists` (lines 109-122).  The head of `resps` is the result of
the initial `sp.current_user_playlists()` call, the tail the results of the
successive `sp.next` calls.  Any raise is caught: the accumulated list is
discarded and `[]` returned with an error message. -/
def load_playlists (resps : List (Except String (Page α))) : FetchResult α :=
  match resps with
  | [] => ⟨[], [], []⟩
  | .error e :: _ => ⟨[], ["Error loading playlists: " ++ e], [e]⟩
  | .ok p :: rest => load_playlists_go p rest []

/-- The `while results:` loop of `load_playlist_tracks` (lines 129-137).
Each page item is `item.get("track")`: `none` models a missing/null (or
falsy) track, which the `if track:` guard skips.  A raise is caught at
line 138, which reports it and falls through to `return tracks` — the
items accumulated so far are KEPT. -/
def load_playlist_tracks_go (cur : Page (Option α))
    (resps : List (Except String (Page (Option α)))) (acc : List α) :
    FetchResult α :=
  if truthy cur.next then
    match resps with
    | [] => ⟨acc ++ cur.items.filterMap id, [], []⟩
    | .error e :: _ =>
        ⟨acc ++ cur.items.filterMap id, ["Error loading tracks: " ++ e], [e]⟩
    | .ok p :: rest => load_playlist_tracks_go p rest (acc ++ cur.items.filterMap id)
  else ⟨acc ++ cur.items.filterMap id, [], []⟩

/-- `load_playlist_tracks` (lines 124-140).  The head of `resps` is the
result of the initial `sp.playlist_items(...)` call. -/
def load_playlist_tracks (resps : List (Except String (Page (Option α)))) :
    FetchResult α :=
  match resps with
  | [] => ⟨[], [], []⟩
  | .error e :: _ => ⟨[], ["Error loading tracks: " ++ e], [e]⟩
  | .ok p :: rest => load_playlist_tracks_go p rest []

/-- A well-formed finite server page sequence: every page but the last has
a truthy `next` cursor, the last a falsy one. -/
def chain : List (Page α) → Bool
  | [] => true
  | [p] => !truthy p.next
  | p :: q :: rest => truthy p.next && chain (q :: rest)

/-- Every page of the list has a truthy `next` cursor (a sequence on which
the loop keeps requesting further pages). -/
def allNext : List (Page α) → Bool
  | [] => true
  | p :: rest => truthy p.next && allNext rest

/-- The session's token info (`ss.token_info`): the fields the code reads.
Expiry is decided by the spotipy oracle `AuthEnv.expired`, not stored. -/
structure TokenInfo where
  access_token : String
  refresh_token : String
  deriving DecidableEq

/-- The authorization environment of one `get_spotify_client` run: the
session and query-parameter state plus the behaviour of the external
collaborators (spotipy OAuth calls, the validation ping, the query-param
clearing).  `code_param` is the `code` query parameter after the
list-normalization of line 69; `clear_result = some e` means
`st.query_params.clear()` raises `e` (swallowed by lines 75-76). -/
structure AuthEnv where
  has_secrets : Bool
  token_info : Option TokenInfo
  code_param : Option String
  exchange : String → Except String TokenInfo
  expired : TokenInfo → Bool
  refresh : String → Except String TokenInfo
  validate : String → Except String Unit
  clear_result : Option String

/-- Outcome of one `get_spotify_client` run: the session token afterwards,
the client produced (`some tok` means a `spotipy.Spotify` built with
`auth = tok.access_token`), the surfaced messages, the exception payloads
raised by exchange/refresh/validation, the payload (if any) raised and
swallowed by `st.query_params.clear()`, whether the code parameter was
cleared, whether `get_access_token` was called, and whether the run ended
in `st.stop()` at the authorize-URL prompt. -/
structure AuthResult where
  token_info : Option TokenInfo
  client : Option TokenInfo
  messages : List String
  raised : List String
  raised_clear : Option String
  cleared : Bool
  exchanged : Bool
  stopped : Bool
  deriving DecidableEq

/-- Lines 93-102: build the client from the current token and validate it
with `sp.current_user()`; on failure report, clear the token, return no
client. -/
def validate_client (env : AuthEnv) (tok : TokenInfo) : AuthResult :=
  match env.validate tok.access_token with
  | .ok _ =>
      { token_info := some tok, client := some tok, messages := [], raised := [],
        raised_clear := none, cleared := false, exchanged := false, stopped := false }
  | .error e =>
      { token_info := none, client := none,
        messages := ["Error validating Spotify connection: " ++ e], raised := [e],
        raised_clear := none, cleared := false, exchanged := false, stopped := false }

/-- Lines 85-102: the expiry check and refresh, then client construction
and validation.  On refresh failure the token is cleared and no client is
produced. -/
def refresh_step (env : AuthEnv) (tok : TokenInfo) : AuthResult :=
  if env.expired tok then
    match env.refresh tok.refresh_token with
    | .error e =>
        { token_info := none, client := none,
          messages := ["Error refreshing token: " ++ e], raised := [e],
          raised_clear := none, cleared := false, exchanged := false, stopped := false }
    | .ok tok2 => validate_client env tok2
  else validate_client env tok

/-- Lines 66-83, reached with no stored token: a falsy `code` query
parameter shows the authorize URL and `st.stop()`s; otherwise the code is
exchanged with `get_access_token` — on failure the error is reported and
the run returns no client, on success the parameter is cleared (the
clearing's own failure swallowed by lines 75-76) and the token falls
through to the expiry/refresh check. -/
def exchange_step (env : AuthEnv) (c : String) : AuthResult :=
  if c.isEmpty then
    { token_info := none, client := none, messages := [], raised := [],
      raised_clear := none, cleared := false, exchanged := false, stopped := true }
  else
    match env.exchange c with
    | .error e =>
        { token_info := none, client := none,
          messages := ["Error getting access token: " ++ e], raised := [e],
          raised_clear := none, cleared := false, exchanged := true, stopped := false }
    | .ok tok =>
        { refresh_step env tok with
          raised_clear := env.clear_result,
          cleared := env.clear_result.isNone, exchanged := true }

/-- `get_spotify_client` (lines 46-105).  Missing secrets report and stop;
with no stored token the `code` query parameter is handled by
`exchange_step`; any token then goes through the expiry/refresh check
before a validated client is built from it. -/
def get_spotify_client (env : AuthEnv) : AuthResult :=
  if env.has_secrets then
    match env.token_info with
    | some tok => refresh_step env tok
    | none =>
      match env.code_param with
      | some c => exchange_step env c
      | none =>
          { token_info := none, client := none, messages := [], raised := [],
            raised_clear := none, cleared := false, exchanged := false, stopped := true }
  else
    { token_info := env.token_info, client := none,
      messages := ["Missing Spotify credentials",
        "Set SPOTIPY_CLIENT_ID, SPOTIPY_CLIENT_SECRET, and SPOTIPY_REDIRECT_URI in Streamlit Cloud or .streamlit/secrets.toml"],
      raised := [], raised_clear := none, cleared := false, exchanged := false,
      stopped := false }

/-- The environment of the next Streamlit rerun of the same session: the
session keeps the token `get_spotify_client` stored, and the `code` query
parameter survives exactly when it was not cleared. -/
def rerun_env (env : AuthEnv) : AuthEnv :=
  { env with
    token_info := (get_spotify_client env).token_info,
    code_param := if (get_spotify_client env).cleared then none else env.code_param }

/-- The five board colors (line 22). -/
def COLORS : List String := ["Red", "Orange", "Yellow", "Blue", "Purple"]

/-- `draw_color_with_tracks` (lines 225-227): the colors whose track cache
is truthy (a non-empty list), then `random.choice` over them, modelled by
the draw index `k` reduced modulo the length; `None` when no color
qualifies. -/
def draw_color_with_tracks (cache : String → List α) (k : Nat) : Option String :=
  let available := COLORS.filter fun c => !(cache c).isEmpty
  if available.isEmpty then none else available[k % available.length]?

/-- The round fields of the session `start_round` writes, plus the
`st.warning` messages it emits. -/
structure RoundResult (α : Type) where
  last_roll : Option Nat
  current_color : Option String
  current_track : Option α
  warnings : List String
  deriving DecidableEq

/-- `start_round` (lines 230-248): roll a die (`random.randint(1, 6)`,
modelled from the draw index `die`), draw a color, and pick a random track
of that color; warn and select nothing when no color has tracks or the
drawn color's list is empty. -/
def start_round (cache : String → List α) (die kc kt : Nat) : RoundResult α :=
  let roll := 1 + die % 6
  match draw_color_with_tracks cache kc with
  | none => ⟨some roll, none, none,
      ["No colors with assigned playlists. Please complete Setup."]⟩
  | some c =>
    let tracks := cache c
    if tracks.isEmpty then
      ⟨some roll, some c, none, ["No tracks found for " ++ c ++ "."]⟩
    else
      ⟨some roll, some c, tracks[kt % tracks.length]?, []⟩

/-- `build_player_order` (lines 154-155): team-major list of player labels,
`t` and `p` running from 1. -/
def build_player_order (teams players_per_team : Nat) : List String :=
  (List.range teams).flatMap fun t =>
    (List.range players_per_team).map fun p =>
      "Team " ++ toString (t + 1) ++ " - Player " ++ toString (p + 1)

/-- The label `build_player_order` gives team index `t` (0-based), player
index `p` (0-based). -/
def player_label (t p : Nat) : String :=
  "Team " ++ toString (t + 1) ++ " - Player " ++ toString (p + 1)

/-- The Next-Player advance of `render_game` (lines 309-311):
`ss.current_player_index = (ss.current_player_index + 1) % total`. -/
def next_player_index (i total : Nat) : Nat := (i + 1) % total

/-- Environment whose stored token is expired and whose refresh call
fails: the refresh-failure path of `get_spotify_client`. -/
def env_refresh_fail : AuthEnv where
  has_secrets := true
  token_info := some ⟨"at0", "rt0"⟩
  code_param := none
  exchange := fun _ => Except.error "unused"
  expired := fun _ => true
  refresh := fun _ => Except.error "bad refresh"
  validate := fun _ => Except.ok ()
  clear_result := none

/-- Environment with a fresh valid stored token: the plain happy path. -/
def env_token_ok : AuthEnv where
  has_secrets := true
  token_info := some ⟨"at0", "rt0"⟩
  code_param := none
  exchange := fun _ => Except.error "unused"
  expired := fun _ => false
  refresh := fun _ => Except.error "unused"
  validate := fun _ => Except.ok ()
  clear_result := none

/-- Environment in which the code exchange succeeds but
`st.query_params.clear()` raises: the raise is swallowed by the bare
`except Exception: pass` of lines 75-76. -/
def env_clear_swallowed : AuthEnv where
  has_secrets := true
  token_info := none
  code_param := some "abc"
  exchange := fun _ => Except.ok ⟨"at1", "rt1"⟩
  expired := fun _ => false
  refresh := fun _ => Except.error "unused"
  validate := fun _ => Except.ok ()
  clear_result := some "boom"

/-- Environment whose authorization-code exchange succeeds cleanly. -/
def env_exchange_ok : AuthEnv where
  has_secrets := true
  token_info := none
  code_param := some "code1"
  exchange := fun c => if c = "code1" then Except.ok ⟨"at1", "rt1"⟩ else Except.error "bad code"
  expired := fun _ => false
  refresh := fun _ => Except.error "unused"
  validate := fun _ => Except.ok ()
  clear_result := none

/-- Environment whose authorization-code exchange raises. -/
def env_exchange_fail : AuthEnv where
  has_secrets := true
  token_info := none
  code_param := some "code1"
  exchange := fun _ => Except.error "bad code"
  expired := fun _ => false
  refresh := fun _ => Except.error "unused"
  validate := fun _ => Except.ok ()
  clear_result := none

/- ------------------------------------------------------------------ -/
/- Helper lemmas                                                      -/
/- ------------------------------------------------------------------ -/

theorem load_playlists_go_chain {α : Type} (ps : List (Page α)) :
    ∀ (p : Page α) (junk : List (Except String (Page α))) (acc : List α),
    chain (p :: ps) = true →
    load_playlists_go p (ps.map Except.ok ++ junk) acc =
      ⟨acc ++ ((p :: ps).map Page.items).flatten, [], []⟩ := by
  induction ps with
  | nil =>
      intro p junk acc h
      simp only [chain, Bool.not_eq_true'] at h
      rw [load_playlists_go.eq_def]
      simp [h]
  | cons q rest ih =>
      intro p junk acc h
      simp only [chain, Bool.and_eq_true] at h
      rw [List.map_cons, List.cons_append, load_playlists_go.eq_def]
      simp only [h.1, if_true]
      rw [ih q junk (acc ++ p.items) h.2]
      simp

theorem load_playlist_tracks_go_chain {α : Type} (ps : List (Page (Option α))) :
    ∀ (p : Page (Option α)) (junk : List (Except String (Page (Option α)))) (acc : List α),
    chain (p :: ps) = true →
    load_playlist_tracks_go p (ps.map Except.ok ++ junk) acc =
      ⟨acc ++ ((p :: ps).map fun q => q.items.filterMap id).flatten, [], []⟩ := by
  induction ps with
  | nil =>
      intro p junk acc h
      simp only [chain, Bool.not_eq_true'] at h
      rw [load_playlist_tracks_go.eq_def]
      simp [h]
  | cons q rest ih =>
      intro p junk acc h
      simp only [chain, Bool.and_eq_true] at h
      rw [List.map_cons, List.cons_append, load_playlist_tracks_go.eq_def]
      simp only [h.1, if_true]
      rw [ih q junk (acc ++ p.items.filterMap id) h.2]
      simp

theorem load_playlists_go_abort {α : Type} (ps : List (Page α)) :
    ∀ (p : Page α) (e : String) (junk : List (Except String (Page α))) (acc : List α),
    allNext (p :: ps) = true →
    load_playlists_go p (ps.map Except.ok ++ Except.error e :: junk) acc =
      ⟨[], ["Error loading playlists: " ++ e], [e]⟩ := by
  induction ps with
  | nil =>
      intro p e junk acc h
      simp only [allNext, Bool.and_eq_true] at h
      rw [load_playlists_go.eq_def]
      simp [h.1]
  | cons q rest ih =>
      intro p e junk acc h
      simp only [allNext, Bool.and_eq_true] at h
      rw [List.map_cons, List.cons_append, load_playlists_go.eq_def]
      simp only [h.1, if_true]
      exact ih q e junk (acc ++ p.items) (by simp [allNext, h.2.1, h.2.2])

theorem load_playlist_tracks_go_abort {α : Type} (ps : List (Page (Option α))) :
    ∀ (p : Page (Option α)) (e : String) (junk : List (Except String (Page (Option α)))) (acc : List α),
    allNext (p :: ps) = true →
    load_playlist_tracks_go p (ps.map Except.ok ++ Except.error e :: junk) acc =
      ⟨acc ++ ((p :: ps).map fun q => q.items.filterMap id).flatten,
        ["Error loading tracks: " ++ e], [e]⟩ := by
  induction ps with
  | nil =>
      intro p e junk acc h
      simp only [allNext, Bool.and_eq_true] at h
      rw [load_playlist_tracks_go.eq_def]
      simp [h.1]
  | cons q rest ih =>
      intro p e junk acc h
      simp only [allNext, Bool.and_eq_true] at h
      rw [List.map_cons, List.cons_append, load_playlist_tracks_go.eq_def]
      simp only [h.1, if_true]
      rw [ih q e junk (acc ++ p.items.filterMap id) (by simp [allNext, h.2.1, h.2.2])]
      simp

theorem validate_client_spec (env : AuthEnv) (t : TokenInfo) (tok : TokenInfo) :
    (validate_client env t).client = some tok → tok = t := by
  unfold validate_client
  split <;> simp
  intro h
  exact h.symm

theorem validate_client_exchanged (env : AuthEnv) (t : TokenInfo) :
    (validate_client env t).exchanged = false := by
  unfold validate_client
  split <;> rfl

theorem refresh_step_client (env : AuthEnv) (t : TokenInfo) (tok : TokenInfo)
    (h : (refresh_step env t).client = some tok) :
    (env.expired t = false ∧ tok = t) ∨
      ∃ t2, env.refresh t.refresh_token = Except.ok t2 ∧ tok = t2 := by
  unfold refresh_step at h
  by_cases hx : env.expired t
  · simp only [hx, if_true] at h
    right
    cases hr : env.refresh t.refresh_token with
    | error e => rw [hr] at h; simp at h
    | ok t2 =>
        rw [hr] at h
        exact ⟨t2, rfl, validate_client_spec env t2 tok h⟩
  · left
    simp only [hx, if_false] at h
    exact ⟨by simp [hx], validate_client_spec env t tok h⟩

theorem refresh_step_exchanged (env : AuthEnv) (t : TokenInfo) :
    (refresh_step env t).exchanged = false := by
  unfold refresh_step
  split
  · split
    · rfl
    · exact validate_client_exchanged env _
  · exact validate_client_exchanged env t

theorem validate_client_raised_surfaced (env : AuthEnv) (t : TokenInfo) (e : String)
    (h : e ∈ (validate_client env t).raised) :
    ∃ m ∈ (validate_client env t).messages, ∃ pre, m = pre ++ e := by
  unfold validate_client at h ⊢
  revert h
  cases hv : env.validate t.access_token with
  | ok u =>
      intro h
      exact absurd (show e ∈ ([] : List String) from h) (by simp)
  | error e2 =>
      intro h
      have he : e = e2 := by simpa using (show e ∈ [e2] from h)
      subst he
      refine ⟨"Error validating Spotify connection: " ++ e, ?_,
        "Error validating Spotify connection: ", rfl⟩
      exact List.mem_singleton.mpr rfl

theorem refresh_step_raised_surfaced (env : AuthEnv) (t : TokenInfo) (e : String)
    (h : e ∈ (refresh_step env t).raised) :
    ∃ m ∈ (refresh_step env t).messages, ∃ pre, m = pre ++ e := by
  unfold refresh_step at h ⊢
  by_cases hx : env.expired t = true
  · rw [if_pos hx] at h ⊢
    revert h
    cases hr : env.refresh t.refresh_token with
    | error e2 =>
        intro h
        have he : e = e2 := by simpa using (show e ∈ [e2] from h)
        subst he
        refine ⟨"Error refreshing token: " ++ e, ?_, "Error refreshing token: ", rfl⟩
        exact List.mem_singleton.mpr rfl
    | ok t2 =>
        intro h
        exact validate_client_raised_surfaced env t2 e h
  · rw [if_neg hx] at h ⊢
    exact validate_client_raised_surfaced env t e h

theorem exchange_step_raised_surfaced (env : AuthEnv) (c : String) (e : String)
    (h : e ∈ (exchange_step env c).raised) :
    ∃ m ∈ (exchange_step env c).messages, ∃ pre, m = pre ++ e := by
  unfold exchange_step at h ⊢
  by_cases hce : c.isEmpty = true
  · rw [if_pos hce] at h
    exact absurd (show e ∈ ([] : List String) from h) (by simp)
  · rw [if_neg hce] at h ⊢
    revert h
    cases hx : env.exchange c with
    | error e2 =>
        intro h
        have he : e = e2 := by simpa using (show e ∈ [e2] from h)
        subst he
        refine ⟨"Error getting access token: " ++ e, ?_,
          "Error getting access token: ", rfl⟩
        exact List.mem_singleton.mpr rfl
    | ok tok =>
        intro h
        exact refresh_step_raised_surfaced env tok e h

theorem get_client_raised_surfaced (env : AuthEnv) (e : String)
    (h : e ∈ (get_spotify_client env).raised) :
    ∃ m ∈ (get_spotify_client env).messages, ∃ pre, m = pre ++ e := by
  unfold get_spotify_client at h ⊢
  by_cases hs : env.has_secrets = true
  · rw [if_pos hs] at h ⊢
    revert h
    cases ht : env.token_info with
    | some tok =>
        intro h
        exact refresh_step_raised_surfaced env tok e h
    | none =>
        cases hc : env.code_param with
        | none =>
            intro h
            exact absurd (show e ∈ ([] : List String) from h) (by simp)
        | some c =>
            intro h
            exact exchange_step_raised_surfaced env c e h
  · rw [if_neg hs] at h
    exact absurd (show e ∈ ([] : List String) from h) (by simp)

theorem load_playlists_go_raised_surfaced {α : Type}
    (resps : List (Except String (Page α))) :
    ∀ (p : Page α) (acc : List α) (e : String),
    e ∈ (load_playlists_go p resps acc).raised →
    ∃ m ∈ (load_playlists_go p resps acc).messages, ∃ pre, m = pre ++ e := by
  induction resps with
  | nil =>
      intro p acc e h
      rw [load_playlists_go.eq_def] at h
      by_cases ht : truthy p.next = true
      · rw [if_pos ht] at h
        exact absurd (show e ∈ ([] : List String) from h) (by simp)
      · rw [if_neg ht] at h
        exact absurd (show e ∈ ([] : List String) from h) (by simp)
  | cons r rest ih =>
      intro p acc e h
      rw [load_playlists_go.eq_def] at h ⊢
      by_cases ht : truthy p.next = true
      · rw [if_pos ht] at h ⊢
        cases r with
        | error e2 =>
            have he : e = e2 := by simpa using (show e ∈ [e2] from h)
            subst he
            refine ⟨"Error loading playlists: " ++ e, ?_, "Error loading playlists: ", rfl⟩
            exact List.mem_singleton.mpr rfl
        | ok q =>
            exact ih q (acc ++ p.items) e h
      · rw [if_neg ht] at h
        exact absurd (show e ∈ ([] : List String) from h) (by simp)

theorem load_playlist_tracks_go_raised_surfaced {α : Type}
    (resps : List (Except String (Page (Option α)))) :
    ∀ (p : Page (Option α)) (acc : List α) (e : String),
    e ∈ (load_playlist_tracks_go p resps acc).raised →
    ∃ m ∈ (load_playlist_tracks_go p resps acc).messages, ∃ pre, m = pre ++ e := by
  induction resps with
  | nil =>
      intro p acc e h
      rw [load_playlist_tracks_go.eq_def] at h
      by_cases ht : truthy p.next = true
      · rw [if_pos ht] at h
        exact absurd (show e ∈ ([] : List String) from h) (by simp)
      · rw [if_neg ht] at h
        exact absurd (show e ∈ ([] : List String) from h) (by simp)
  | cons r rest ih =>
      intro p acc e h
      rw [load_playlist_tracks_go.eq_def] at h ⊢
      by_cases ht : truthy p.next = true
      · rw [if_pos ht] at h ⊢
        cases r with
        | error e2 =>
            have he : e = e2 := by simpa using (show e ∈ [e2] from h)
            subst he
            refine ⟨"Error loading tracks: " ++ e, ?_, "Error loading tracks: ", rfl⟩
            exact List.mem_singleton.mpr rfl
        | ok q =>
            exact ih q (acc ++ p.items.filterMap id) e h
      · rw [if_neg ht] at h
        exact absurd (show e ∈ ([] : List String) from h) (by simp)

theorem build_player_order_length (teams players_per_team : Nat) :
    (build_player_order teams players_per_team).length = teams * players_per_team := by
  induction teams with
  | zero => simp [build_player_order]
  | succ n ih =>
      unfold build_player_order at ih ⊢
      rw [List.range_succ, List.flatMap_append, List.length_append, ih]
      simp [Nat.succ_mul]

theorem build_player_order_getElem (teams players_per_team : Nat) :
    ∀ t p, t < teams → p < players_per_team →
    (build_player_order teams players_per_team)[t * players_per_team + p]? =
      some (player_label t p) := by
  induction teams with
  | zero => intro t p ht _; exact absurd ht (Nat.not_lt_zero t)
  | succ n ih =>
      intro t p ht hp
      unfold build_player_order at ih ⊢
      rw [List.range_succ, List.flatMap_append, List.getElem?_append]
      rcases Nat.lt_or_ge t n with hlt | hge
      · rw [if_pos, ih t p hlt hp]
        calc t * players_per_team + p < t * players_per_team + players_per_team :=
              Nat.add_lt_add_left hp _
          _ = (t + 1) * players_per_team := (Nat.succ_mul t players_per_team).symm
          _ ≤ n * players_per_team := Nat.mul_le_mul_right _ hlt
          _ = ((List.range n).flatMap fun t =>
                (List.range players_per_team).map fun p =>
                  "Team " ++ toString (t + 1) ++ " - Player " ++ toString (p + 1)).length := by
              rw [show ((List.range n).flatMap fun t =>
                (List.range players_per_team).map fun p =>
                  "Team " ++ toString (t + 1) ++ " - Player " ++ toString (p + 1)) =
                build_player_order n players_per_team from rfl,
                build_player_order_length, Nat.mul_comm]
      · have htn : t = n := Nat.le_antisymm (Nat.lt_succ_iff.mp ht) hge
        subst htn
        have hlen : ((List.range t).flatMap fun t =>
            (List.range players_per_team).map fun p =>
              "Team " ++ toString (t + 1) ++ " - Player " ++ toString (p + 1)).length =
            t * players_per_team := by
          rw [show ((List.range t).flatMap fun t =>
            (List.range players_per_team).map fun p =>
              "Team " ++ toString (t + 1) ++ " - Player " ++ toString (p + 1)) =
            build_player_order t players_per_team from rfl, build_player_order_length]
        rw [if_neg (by rw [hlen]; omega), hlen, Nat.add_sub_cancel_left]
        simp only [List.flatMap_cons, List.flatMap_nil, List.append_nil]
        rw [List.getElem?_map, List.getElem?_range hp]
        rfl

/- ------------------------------------------------------------------ -/
/- Claim theorems                                                     -/
/- ------------------------------------------------------------------ -/

/-- C1: for every session whose credential refresh fails, the stored
credential is cleared, no API client is produced, and an error is
surfaced — the manager returns to the Unauthenticated state, and the
failed credential is not reused. -/
theorem C1_refresh_failure_clears_credential (env : AuthEnv) (tok : TokenInfo)
    (e : String) (hs : env.has_secrets = true) (ht : env.token_info = some tok)
    (hx : env.expired tok = true)
    (hr : env.refresh tok.refresh_token = Except.error e) :
    (get_spotify_client env).token_info = none ∧
    (get_spotify_client env).client = none ∧
    ("Error refreshing token: " ++ e) ∈ (get_spotify_client env).messages := by
  have hgc : get_spotify_client env = refresh_step env tok := by
    unfold get_spotify_client
    rw [if_pos hs, ht]
  rw [hgc]
  unfold refresh_step
  rw [if_pos hx, hr]
  exact ⟨rfl, rfl, List.mem_singleton.mpr rfl⟩

theorem C1_witness :
    (get_spotify_client env_refresh_fail).token_info = none ∧
    (get_spotify_client env_refresh_fail).client = none ∧
    ("Error refreshing token: " ++ "bad refresh") ∈
      (get_spotify_client env_refresh_fail).messages :=
  C1_refresh_failure_clears_credential env_refresh_fail ⟨"at0", "rt0"⟩
    "bad refresh" rfl rfl rfl rfl

/-- C2: both pagination loops continue to the next page whenever the
current page's next cursor is truthy (regardless of the page's items, so
also on a zero-item page), stop exactly when the cursor is falsy
(null/absent), and for a well-formed finite page sequence any responses
past the first cursor-less page are never requested: fetching terminates
precisely by reaching that page. -/
theorem C2_pagination_cursor_loop (α : Type)
    (a b : Page α) (resps : List (Except String (Page α))) (acc : List α)
    (s : Page α) (resps2 : List (Except String (Page α))) (acc2 : List α)
    (p : Page α) (ps : List (Page α)) (junk : List (Except String (Page α)))
    (a2 b2 : Page (Option α)) (resps3 : List (Except String (Page (Option α))))
    (acc3 : List α)
    (s2 : Page (Option α)) (resps4 : List (Except String (Page (Option α))))
    (acc4 : List α)
    (p2 : Page (Option α)) (ps2 : List (Page (Option α)))
    (junk2 : List (Except String (Page (Option α)))) :
    (truthy a.next = true →
      load_playlists_go a (Except.ok b :: resps) acc =
        load_playlists_go b resps (acc ++ a.items))
    ∧ (truthy s.next = false →
      load_playlists_go s resps2 acc2 = ⟨acc2 ++ s.items, [], []⟩)
    ∧ (chain (p :: ps) = true →
      load_playlists ((p :: ps).map Except.ok ++ junk) =
        load_playlists ((p :: ps).map Except.ok))
    ∧ (truthy a2.next = true →
      load_playlist_tracks_go a2 (Except.ok b2 :: resps3) acc3 =
        load_playlist_tracks_go b2 resps3 (acc3 ++ a2.items.filterMap id))
    ∧ (truthy s2.next = false →
      load_playlist_tracks_go s2 resps4 acc4 =
        ⟨acc4 ++ s2.items.filterMap id, [], []⟩)
    ∧ (chain (p2 :: ps2) = true →
      load_playlist_tracks ((p2 :: ps2).map Except.ok ++ junk2) =
        load_playlist_tracks ((p2 :: ps2).map Except.ok)) := by
  refine ⟨?_, ?_, ?_, ?_, ?_, ?_⟩
  · intro h
    conv_lhs => rw [load_playlists_go.eq_def]
    rw [if_pos h]
  · intro h
    conv_lhs => rw [load_playlists_go.eq_def]
    rw [if_neg (by simp [h])]
  · intro h
    have h1 := load_playlists_go_chain ps p junk [] h
    have h2 := load_playlists_go_chain ps p [] [] h
    rw [List.append_nil] at h2
    show load_playlists_go p (ps.map Except.ok ++ junk) [] =
      load_playlists_go p (ps.map Except.ok) []
    rw [h1, h2]
  · intro h
    conv_lhs => rw [load_playlist_tracks_go.eq_def]
    rw [if_pos h]
  · intro h
    conv_lhs => rw [load_playlist_tracks_go.eq_def]
    rw [if_neg (by simp [h])]
  · intro h
    have h1 := load_playlist_tracks_go_chain ps2 p2 junk2 [] h
    have h2 := load_playlist_tracks_go_chain ps2 p2 [] [] h
    rw [List.append_nil] at h2
    show load_playlist_tracks_go p2 (ps2.map Except.ok ++ junk2) [] =
      load_playlist_tracks_go p2 (ps2.map Except.ok) []
    rw [h1, h2]

theorem C2_witness :
    (load_playlists_go (⟨[], some "n"⟩ : Page Nat) [Except.ok ⟨[7], none⟩] [] =
      load_playlists_go ⟨[7], none⟩ [] ([] ++ Page.items ⟨[], some "n"⟩))
    ∧ (load_playlists_go (⟨[1], none⟩ : Page Nat) [Except.error "x"] [] =
      ⟨[] ++ Page.items ⟨[1], none⟩, [], []⟩)
    ∧ (load_playlists
        (([⟨[1, 2], some "n"⟩, ⟨[], some "n2"⟩, ⟨[3], none⟩] :
            List (Page Nat)).map Except.ok ++ [Except.error "z"]) =
      load_playlists
        (([⟨[1, 2], some "n"⟩, ⟨[], some "n2"⟩, ⟨[3], none⟩] :
            List (Page Nat)).map Except.ok))
    ∧ (load_playlist_tracks_go (⟨[], some "n"⟩ : Page (Option Nat))
        [Except.ok ⟨[some 7], none⟩] [] =
      load_playlist_tracks_go ⟨[some 7], none⟩ []
        ([] ++ (Page.items ⟨[], some "n"⟩).filterMap id))
    ∧ (load_playlist_tracks_go (⟨[some 1, none], none⟩ : Page (Option Nat))
        [Except.error "x"] [] =
      ⟨[] ++ (Page.items ⟨[some 1, none], none⟩).filterMap id, [], []⟩)
    ∧ (load_playlist_tracks
        (([⟨[some 1, none], some "n"⟩, ⟨[none], some "k"⟩, ⟨[some 3], none⟩] :
            List (Page (Option Nat))).map Except.ok ++ [Except.error "w"]) =
      load_playlist_tracks
        (([⟨[some 1, none], some "n"⟩, ⟨[none], some "k"⟩, ⟨[some 3], none⟩] :
            List (Page (Option Nat))).map Except.ok)) := by
  have h := C2_pagination_cursor_loop Nat ⟨[], some "n"⟩ ⟨[7], none⟩ [] []
    ⟨[1], none⟩ [Except.error "x"] []
    ⟨[1, 2], some "n"⟩ [⟨[], some "n2"⟩, ⟨[3], none⟩] [Except.error "z"]
    ⟨[], some "n"⟩ ⟨[some 7], none⟩ [] []
    ⟨[some 1, none], none⟩ [Except.error "x"] []
    ⟨[some 1, none], some "n"⟩ [⟨[none], some "k"⟩, ⟨[some 3], none⟩]
    [Except.error "w"]
  exact ⟨h.1 (by decide), h.2.1 (by decide), h.2.2.1 (by decide),
    h.2.2.2.1 (by decide), h.2.2.2.2.1 (by decide), h.2.2.2.2.2 (by decide)⟩

/-- C3: with no fetch failure, `load_playlists` returns the concatenation
of the pages' item lists in server order (duplicates and order preserved);
in particular a 3-page sequence of sizes 2,2,1 whose last page has a null
next cursor yields the 5 items in original order. -/
theorem C3_fetch_all_concatenates (α : Type) (p : Page α) (ps : List (Page α))
    (a b c d e : α) (h : chain (p :: ps) = true) :
    (load_playlists ((p :: ps).map Except.ok)).items =
      ((p :: ps).map Page.items).flatten
    ∧ (load_playlists [Except.ok ⟨[a, b], some "next1"⟩,
        Except.ok ⟨[c, d], some "next2"⟩,
        Except.ok (⟨[e], none⟩ : Page α)]).items = [a, b, c, d, e] := by
  constructor
  · have h2 := load_playlists_go_chain ps p [] [] h
    rw [List.append_nil] at h2
    show (load_playlists_go p (ps.map Except.ok) []).items = _
    rw [h2]
    simp
  · have h3 := load_playlists_go_chain
      [⟨[c, d], some "next2"⟩, (⟨[e], none⟩ : Page α)]
      ⟨[a, b], some "next1"⟩ [] [] (by rfl)
    rw [List.append_nil] at h3
    show (load_playlists_go ⟨[a, b], some "next1"⟩
      ([⟨[c, d], some "next2"⟩, (⟨[e], none⟩ : Page α)].map Except.ok) []).items = _
    rw [h3]
    simp

theorem C3_witness :
    (load_playlists (([⟨[1, 2], some "next1"⟩, ⟨[3, 4], some "next2"⟩,
        ⟨[5], none⟩] : List (Page Nat)).map Except.ok)).items =
      (([⟨[1, 2], some "next1"⟩, ⟨[3, 4], some "next2"⟩,
        ⟨[5], none⟩] : List (Page Nat)).map Page.items).flatten
    ∧ (load_playlists [Except.ok ⟨[1, 2], some "next1"⟩,
        Except.ok ⟨[3, 4], some "next2"⟩,
        Except.ok (⟨[5], none⟩ : Page Nat)]).items = [1, 2, 3, 4, 5] :=
  C3_fetch_all_concatenates Nat ⟨[1, 2], some "next1"⟩
    [⟨[3, 4], some "next2"⟩, ⟨[5], none⟩] 1 2 3 4 5 (by decide)

/-- C4 as stated is false on this code: `load_playlist_tracks` keeps the
items accumulated before a mid-pagination failure.  With page one holding
track "t1" (truthy cursor) and the second fetch raising, it returns the
partial list ["t1"], not an empty result. -/
theorem C4_counterexample :
    (load_playlist_tracks [Except.ok ⟨[some "t1"], some "next1"⟩,
      Except.error "boom"]).items = ["t1"]
    ∧ ¬ (load_playlist_tracks [Except.ok ⟨[some "t1"], some "next1"⟩,
      Except.error "boom"]).items = ([] : List String) := by
  constructor
  · rfl
  · decide

/-- C4 amended: a page-fetch failure aborts the whole fetch and is
surfaced; `load_playlists` discards all accumulated items and returns an
empty list, while `load_playlist_tracks` reports the error but returns
the partial list of items accumulated from the pages fetched before the
failure. -/
theorem C4_abort_behaviour_amended (α : Type)
    (ps : List (Page α)) (e : String) (junk : List (Except String (Page α)))
    (ps2 : List (Page (Option α))) (e2 : String)
    (junk2 : List (Except String (Page (Option α))))
    (h : allNext ps = true) (h2 : allNext ps2 = true) :
    load_playlists (ps.map Except.ok ++ Except.error e :: junk) =
      ⟨[], ["Error loading playlists: " ++ e], [e]⟩
    ∧ load_playlist_tracks (ps2.map Except.ok ++ Except.error e2 :: junk2) =
      ⟨(ps2.map fun q => q.items.filterMap id).flatten,
        ["Error loading tracks: " ++ e2], [e2]⟩ := by
  constructor
  · cases ps with
    | nil => rfl
    | cons p rest =>
        show load_playlists_go p (rest.map Except.ok ++ Except.error e :: junk) [] = _
        rw [load_playlists_go_abort rest p e junk [] h]
  · cases ps2 with
    | nil => rfl
    | cons p rest =>
        show load_playlist_tracks_go p
          (rest.map Except.ok ++ Except.error e2 :: junk2) [] = _
        rw [load_playlist_tracks_go_abort rest p e2 junk2 [] h2]
        simp

theorem C4_witness :
    load_playlists (([⟨[1, 2], some "n"⟩] : List (Page Nat)).map Except.ok ++
        Except.error "boom" :: []) =
      ⟨[], ["Error loading playlists: " ++ "boom"], ["boom"]⟩
    ∧ load_playlist_tracks (([⟨[some 9, none], some "n"⟩] :
          List (Page (Option Nat))).map Except.ok ++ Except.error "crash" :: []) =
      ⟨(([⟨[some 9, none], some "n"⟩] : List (Page (Option Nat))).map
          fun q => q.items.filterMap id).flatten,
        ["Error loading tracks: " ++ "crash"], ["crash"]⟩ :=
  C4_abort_behaviour_amended Nat [⟨[1, 2], some "n"⟩] "boom" []
    [⟨[some 9, none], some "n"⟩] "crash" [] (by decide) (by decide)

/-- C9: the track loader returns only non-null tracks: its result is the
concatenation of each consumed page's items with the null (missing-track)
entries skipped, and every returned track occurs as a non-null entry of
some page. -/
theorem C9_null_tracks_skipped (α : Type) (p : Page (Option α))
    (ps : List (Page (Option α))) (junk : List (Except String (Page (Option α))))
    (h : chain (p :: ps) = true) :
    (load_playlist_tracks ((p :: ps).map Except.ok ++ junk)).items =
      ((p :: ps).map fun q => q.items.filterMap id).flatten
    ∧ ∀ t, t ∈ (load_playlist_tracks ((p :: ps).map Except.ok ++ junk)).items →
        ∃ q ∈ p :: ps, some t ∈ q.items := by
  have h1 := load_playlist_tracks_go_chain ps p junk [] h
  have hitems : (load_playlist_tracks ((p :: ps).map Except.ok ++ junk)).items =
      ((p :: ps).map fun q => q.items.filterMap id).flatten := by
    show (load_playlist_tracks_go p (ps.map Except.ok ++ junk) []).items = _
    rw [h1]
    simp
  refine ⟨hitems, ?_⟩
  intro t ht
  rw [hitems, List.mem_flatten] at ht
  obtain ⟨s, hs, hts⟩ := ht
  rw [List.mem_map] at hs
  obtain ⟨q, hq, rfl⟩ := hs
  obtain ⟨o, ho, hob⟩ := List.mem_filterMap.mp hts
  rw [id_eq] at hob
  subst hob
  exact ⟨q, hq, ho⟩

theorem C9_witness :
    (load_playlist_tracks (([⟨[some 1, none, some 2], some "u"⟩,
        ⟨[none, some 3], none⟩] : List (Page (Option Nat))).map Except.ok ++
        [])).items =
      (([⟨[some 1, none, some 2], some "u"⟩, ⟨[none, some 3], none⟩] :
          List (Page (Option Nat))).map fun q => q.items.filterMap id).flatten
    ∧ ∃ q ∈ ([⟨[some 1, none, some 2], some "u"⟩, ⟨[none, some 3], none⟩] :
        List (Page (Option Nat))), some 3 ∈ q.items := by
  have h := C9_null_tracks_skipped Nat ⟨[some 1, none, some 2], some "u"⟩
    [⟨[none, some 3], none⟩] [] (by decide)
  exact ⟨h.1, h.2 3 (by rw [h.1]; decide)⟩

/-- C5: when no color has a non-empty track cache, `start_round` fails
deterministically — it selects no color and no track and surfaces the
setup warning; over a singleton collection (one color holding one track)
it always selects exactly that color and that track, whatever the random
draws. -/
theorem C5_pick_random_empty_and_singleton (α : Type) (cache : String → List α)
    (die kc kt : Nat) (t : α) (c0 : String) :
    ((∀ c ∈ COLORS, cache c = []) →
      (start_round cache die kc kt).current_color = none ∧
      (start_round cache die kc kt).current_track = none ∧
      (start_round cache die kc kt).warnings =
        ["No colors with assigned playlists. Please complete Setup."])
    ∧ (c0 ∈ COLORS →
      (start_round (fun c => if c = c0 then [t] else []) die kc kt).current_color =
        some c0 ∧
      (start_round (fun c => if c = c0 then [t] else []) die kc kt).current_track =
        some t ∧
      (start_round (fun c => if c = c0 then [t] else []) die kc kt).warnings = []) := by
  constructor
  · intro hempty
    have hav : COLORS.filter (fun c => !(cache c).isEmpty) = [] := by
      rw [List.filter_eq_nil_iff]
      intro c hc
      rw [hempty c hc]
      simp
    unfold start_round draw_color_with_tracks
    rw [hav]
    exact ⟨rfl, rfl, rfl⟩
  · intro hc0
    have hc0' : c0 = "Red" ∨ c0 = "Orange" ∨ c0 = "Yellow" ∨ c0 = "Blue" ∨
        c0 = "Purple" := by simpa [COLORS] using hc0
    have key : ∀ c1 : String, c1 ∈ COLORS →
        COLORS.filter (fun c =>
          !((fun c => if c = c1 then [t] else ([] : List α)) c).isEmpty) = [c1] →
        (start_round (fun c => if c = c1 then [t] else []) die kc kt).current_color =
          some c1 ∧
        (start_round (fun c => if c = c1 then [t] else []) die kc kt).current_track =
          some t ∧
        (start_round (fun c => if c = c1 then [t] else []) die kc kt).warnings = [] := by
      intro c1 hc1 hav
      unfold start_round draw_color_with_tracks
      rw [hav]
      simp [Nat.mod_one]
    rcases hc0' with rfl | rfl | rfl | rfl | rfl
    · exact key "Red" (by decide) (by simp [COLORS])
    · exact key "Orange" (by decide) (by simp [COLORS])
    · exact key "Yellow" (by decide) (by simp [COLORS])
    · exact key "Blue" (by decide) (by simp [COLORS])
    · exact key "Purple" (by decide) (by simp [COLORS])

theorem C5_witness :
    ((start_round (fun _ => ([] : List Nat)) 0 0 0).current_color = none ∧
     (start_round (fun _ => ([] : List Nat)) 0 0 0).current_track = none ∧
     (start_round (fun _ => ([] : List Nat)) 0 0 0).warnings =
       ["No colors with assigned playlists. Please complete Setup."])
    ∧ ((start_round (fun c => if c = "Blue" then [42] else ([] : List Nat))
          3 5 9).current_color = some "Blue" ∧
       (start_round (fun c => if c = "Blue" then [42] else ([] : List Nat))
          3 5 9).current_track = some 42 ∧
       (start_round (fun c => if c = "Blue" then [42] else ([] : List Nat))
          3 5 9).warnings = []) := by
  have h := C5_pick_random_empty_and_singleton Nat (fun _ => []) 0 0 0 42 "Blue"
  have h2 := C5_pick_random_empty_and_singleton Nat (fun _ => []) 3 5 9 42 "Blue"
  exact ⟨h.1 (fun c _ => rfl), h2.2 (by decide)⟩

/-- C6: the bearer token an API client is built from is never one that
tested expired: assuming refresh hands back unexpired credentials, every
client `get_spotify_client` produces carries an unexpired token (an
expired stored credential is refreshed, or cleared, first). -/
theorem C6_no_expired_token_used (env : AuthEnv) (tok : TokenInfo)
    (hfresh : ∀ rt t2, env.refresh rt = Except.ok t2 → env.expired t2 = false)
    (hc : (get_spotify_client env).client = some tok) :
    env.expired tok = false := by
  unfold get_spotify_client at hc
  by_cases hs : env.has_secrets = true
  · rw [if_pos hs] at hc
    revert hc
    cases ht : env.token_info with
    | some t0 =>
        intro hc
        rcases refresh_step_client env t0 tok hc with ⟨hx, rfl⟩ | ⟨_t2, hr, rfl⟩
        · exact hx
        · exact hfresh _ _ hr
    | none =>
        cases hcp : env.code_param with
        | none =>
            intro hc
            exact absurd (show (none : Option TokenInfo) = some tok from hc) (by simp)
        | some c =>
            intro hc
            have hc2 : (exchange_step env c).client = some tok := hc
            unfold exchange_step at hc2
            by_cases hce : c.isEmpty = true
            · rw [if_pos hce] at hc2
              exact absurd (show (none : Option TokenInfo) = some tok from hc2) (by simp)
            · rw [if_neg hce] at hc2
              revert hc2
              cases hx : env.exchange c with
              | error e =>
                  intro hc2
                  exact absurd (show (none : Option TokenInfo) = some tok from hc2)
                    (by simp)
              | ok t0 =>
                  intro hc2
                  rcases refresh_step_client env t0 tok hc2 with ⟨hx2, rfl⟩ | ⟨_t2, hr, rfl⟩
                  · exact hx2
                  · exact hfresh _ _ hr
  · rw [if_neg hs] at hc
    exact absurd (show (none : Option TokenInfo) = some tok from hc) (by simp)

theorem C6_witness : env_token_ok.expired ⟨"at0", "rt0"⟩ = false :=
  C6_no_expired_token_used env_token_ok ⟨"at0", "rt0"⟩
    (fun _ t2 h => Except.noConfusion h) rfl

/-- C7 as stated is false on this code: when the code exchange succeeds
but `st.query_params.clear()` raises, the raise is swallowed by the bare
`except Exception: pass` (lines 75-76) — the error is recorded nowhere in
the surfaced messages. -/
theorem C7_counterexample :
    (get_spotify_client env_clear_swallowed).raised_clear = some "boom"
    ∧ ¬ ∃ m ∈ (get_spotify_client env_clear_swallowed).messages,
        ∃ pre, m = pre ++ "boom" := by
  constructor
  · rfl
  · rintro ⟨m, hm, -⟩
    exact absurd (show m ∈ ([] : List String) from hm) (by simp)

/-- C7 amended: every error raised by the token exchange, the refresh, or
the connection validation inside `get_spotify_client`, and every page-
fetch error in either loader, is surfaced in a message containing the
error text; the one exception is a failure of clearing the consumed code
query parameter, which lines 75-76 deliberately swallow. -/
theorem C7_amended_errors_surfaced (α : Type) :
    (∀ env e, e ∈ (get_spotify_client env).raised →
      ∃ m ∈ (get_spotify_client env).messages, ∃ pre, m = pre ++ e)
    ∧ (∀ (resps : List (Except String (Page α))) e,
        e ∈ (load_playlists resps).raised →
        ∃ m ∈ (load_playlists resps).messages, ∃ pre, m = pre ++ e)
    ∧ (∀ (resps : List (Except String (Page (Option α)))) e,
        e ∈ (load_playlist_tracks resps).raised →
        ∃ m ∈ (load_playlist_tracks resps).messages, ∃ pre, m = pre ++ e) := by
  refine ⟨get_client_raised_surfaced, ?_, ?_⟩
  · intro resps e h
    cases resps with
    | nil => exact absurd (show e ∈ ([] : List String) from h) (by simp)
    | cons r rest =>
        cases r with
        | error e2 =>
            have he : e = e2 := by simpa using (show e ∈ [e2] from h)
            subst he
            exact ⟨"Error loading playlists: " ++ e, List.mem_singleton.mpr rfl,
              "Error loading playlists: ", rfl⟩
        | ok p => exact load_playlists_go_raised_surfaced rest p [] e h
  · intro resps e h
    cases resps with
    | nil => exact absurd (show e ∈ ([] : List String) from h) (by simp)
    | cons r rest =>
        cases r with
        | error e2 =>
            have he : e = e2 := by simpa using (show e ∈ [e2] from h)
            subst he
            exact ⟨"Error loading tracks: " ++ e, List.mem_singleton.mpr rfl,
              "Error loading tracks: ", rfl⟩
        | ok p => exact load_playlist_tracks_go_raised_surfaced rest p [] e h

theorem C7_witness :
    ∃ m ∈ (get_spotify_client env_refresh_fail).messages,
      ∃ pre, m = pre ++ "bad refresh" :=
  (C7_amended_errors_surfaced Nat).1 env_refresh_fail "bad refresh" (by decide)

/-- C8: a failed authorization-code exchange is reported, yields no
client, and leaves the stored credential unset; a successful exchange
stores the token in the session and clears the `code` query parameter,
and with the token stored the next rerun of the session never calls the
exchange again. -/
theorem C8_code_exchange (env : AuthEnv) (c : String) (e : String) (tok : TokenInfo)
    (hs : env.has_secrets = true) (ht : env.token_info = none)
    (hcp : env.code_param = some c) (hne : c.isEmpty = false) :
    (env.exchange c = Except.error e →
      (get_spotify_client env).client = none ∧
      (get_spotify_client env).token_info = none ∧
      ("Error getting access token: " ++ e) ∈ (get_spotify_client env).messages)
    ∧ (env.exchange c = Except.ok tok → env.expired tok = false →
       env.validate tok.access_token = Except.ok () → env.clear_result = none →
      (get_spotify_client env).token_info = some tok ∧
      (get_spotify_client env).client = some tok ∧
      (get_spotify_client env).cleared = true ∧
      (get_spotify_client (rerun_env env)).exchanged = false) := by
  have hgc : get_spotify_client env = exchange_step env c := by
    unfold get_spotify_client
    rw [if_pos hs, ht, hcp]
  constructor
  · intro hx
    rw [hgc]
    unfold exchange_step
    rw [if_neg (by simp [hne]), hx]
    exact ⟨rfl, rfl, List.mem_singleton.mpr rfl⟩
  · intro hx hexp hval hclear
    have hrs : refresh_step env tok = validate_client env tok := by
      unfold refresh_step
      rw [if_neg (by simp [hexp])]
    have hvc : validate_client env tok =
        { token_info := some tok, client := some tok, messages := [], raised := [],
          raised_clear := none, cleared := false, exchanged := false,
          stopped := false } := by
      unfold validate_client
      rw [hval]
    have hti : (get_spotify_client env).token_info = some tok := by
      rw [hgc]
      unfold exchange_step
      rw [if_neg (by simp [hne]), hx]
      show (refresh_step env tok).token_info = some tok
      rw [hrs, hvc]
    refine ⟨hti, ?_, ?_, ?_⟩
    · rw [hgc]
      unfold exchange_step
      rw [if_neg (by simp [hne]), hx]
      show (refresh_step env tok).client = some tok
      rw [hrs, hvc]
    · rw [hgc]
      unfold exchange_step
      rw [if_neg (by simp [hne]), hx]
      show env.clear_result.isNone = true
      rw [hclear]
      rfl
    · have h1 : (rerun_env env).has_secrets = true := hs
      have h2 : (rerun_env env).token_info = some tok := hti
      have hrr : get_spotify_client (rerun_env env) =
          refresh_step (rerun_env env) tok := by
        unfold get_spotify_client
        rw [if_pos h1, h2]
      rw [hrr]
      exact refresh_step_exchanged _ tok

theorem C8_witness :
    ((get_spotify_client env_exchange_fail).client = none ∧
     (get_spotify_client env_exchange_fail).token_info = none ∧
     ("Error getting access token: " ++ "bad code") ∈
       (get_spotify_client env_exchange_fail).messages)
    ∧ ((get_spotify_client env_exchange_ok).token_info = some ⟨"at1", "rt1"⟩ ∧
       (get_spotify_client env_exchange_ok).client = some ⟨"at1", "rt1"⟩ ∧
       (get_spotify_client env_exchange_ok).cleared = true ∧
       (get_spotify_client (rerun_env env_exchange_ok)).exchanged = false) :=
  ⟨(C8_code_exchange env_exchange_fail "code1" "bad code" ⟨"x", "y"⟩
      rfl rfl rfl rfl).1 rfl,
   (C8_code_exchange env_exchange_ok "code1" "unused" ⟨"at1", "rt1"⟩
      rfl rfl rfl rfl).2 rfl rfl rfl rfl⟩

/-- C10: `build_player_order` produces exactly teams × players_per_team
labels grouped team-major (team t's player p sits at index
t·players_per_team + p), and the Next-Player advance maps index i to
(i+1) mod n, which always stays inside [0, n), so indexing the player
order never goes out of bounds. -/
theorem C10_player_order_advance (teams players_per_team : Nat)
    (h1 : 0 < teams) (h2 : 0 < players_per_team) :
    (build_player_order teams players_per_team).length = teams * players_per_team
    ∧ (∀ i, next_player_index i (build_player_order teams players_per_team).length <
        (build_player_order teams players_per_team).length)
    ∧ (∀ t p, t < teams → p < players_per_team →
        (build_player_order teams players_per_team)[t * players_per_team + p]? =
          some (player_label t p)) := by
  refine ⟨build_player_order_length teams players_per_team, ?_, ?_⟩
  · intro i
    rw [build_player_order_length]
    exact Nat.mod_lt _ (Nat.mul_pos h1 h2)
  · exact build_player_order_getElem teams players_per_team

theorem C10_witness :
    (build_player_order 2 3).length = 2 * 3
    ∧ next_player_index 5 (build_player_order 2 3).length <
        (build_player_order 2 3).length
    ∧ (build_player_order 2 3)[1 * 3 + 2]? = some (player_label 1 2) := by
  have h := C10_player_order_advance 2 3 (by decide) (by decide)
  exact ⟨h.1, h.2.1 5, h.2.2 1 2 (by decide) (by decide)⟩

end AMC
